import Mathlib

/-!
Verification of the cloud speech-recognition subsystem of the melange
repository (src/plugins/speech/recognition.ts).

The TypeScript source is shallowly embedded: JavaScript numbers are modelled
by exact arithmetic (`ℚ` for float samples and rates, `ℕ`/`ℤ` for integer
quantities, with explicit `% 2^w` where the typed-array stores wrap), byte
buffers by `List ℕ`, and the event-driven session objects by explicit state
records together with the list of events they emit.  All definitions follow
the source line by line; source locations are cited next to each definition.
-/

/-! ## AudioUtils (recognition.ts, lines 200-323) -/

/-- Embeds `AudioUtils.resample` (recognition.ts lines 208-217).
`compression = inputRate / outputRate`, output length
`Math.ceil(data.length / compression)`, and output sample `i` is
`data[Math.floor(i * compression)] ?? 0`.  JS doubles are modelled by exact
rationals. -/
def resample (data : List ℚ) (inputRate outputRate : ℕ) : List ℚ :=
  if inputRate = outputRate then data
  else
    let compression : ℚ := (inputRate : ℚ) / (outputRate : ℚ)
    let length : ℕ := Nat.ceil ((data.length : ℚ) / compression)
    (List.range length).map (fun (i : ℕ) => data.getD (Nat.floor ((i : ℚ) * compression)) 0)

/-- JavaScript `ToInt16`-style truncation toward zero of an exact value, as
performed when a number is stored into an `Int16Array` slot. -/
def jsTrunc (q : ℚ) : ℤ :=
  if q < 0 then Int.ceil q else Int.floor q

/-- Embeds one sample of `AudioUtils.floatTo16BitPCM` (recognition.ts lines
224-231): `s = Math.max(-1, Math.min(1, x))`, then `s < 0 ? s * 0x8000 :
s * 0x7fff`, truncated by the `Int16Array` store. -/
def floatTo16BitPCMSample (x : ℚ) : ℤ :=
  let s := max (-1) (min 1 x)
  if s < 0 then jsTrunc (s * 0x8000) else jsTrunc (s * 0x7fff)

/-- Embeds `AudioUtils.floatTo16BitPCM` on a whole block. -/
def floatTo16BitPCM (input : List ℚ) : List ℤ :=
  input.map floatTo16BitPCMSample

/-- Decoding a 16-bit PCM value back to float by dividing by the scale factor
used on encode (0x8000 for negative values, 0x7fff otherwise), as stated by
the round-trip property of the spec. -/
def pcm16ToFloat (n : ℤ) : ℚ :=
  if n < 0 then (n : ℚ) / 0x8000 else (n : ℚ) / 0x7fff

/-- Two little-endian bytes of a JS `DataView.setUint16` store (the value is
taken mod 2^16, the bytes written at `offset` and `offset+1`). -/
def u16le (n : ℕ) : List ℕ :=
  [n % 256, n / 256 % 256]

/-- Four little-endian bytes of a JS `DataView.setUint32` store. -/
def u32le (n : ℕ) : List ℕ :=
  [n % 256, n / 256 % 256, n / 65536 % 256, n / 16777216 % 256]

/-- Two little-endian bytes of a JS `DataView.setInt16` store: the two's
complement representation `v % 2^16`, little-endian. -/
def i16le (v : ℤ) : List ℕ :=
  let m := (v % 65536).toNat
  [m % 256, m / 256]

/-- The 44-byte RIFF/WAVE header written by `AudioUtils.encodeWAV`
(recognition.ts lines 271-298), in offset order 0..43: "RIFF", ChunkSize
`36 + dataSize`, "WAVE", "fmt ", subchunk size 16, PCM format 1, channels,
sample rate, byte rate, block align, bits per sample 16, "data", dataSize. -/
def wavHeader (sampleCount sampleRate channels : ℕ) : List ℕ :=
  [82, 73, 70, 70]
    ++ u32le (36 + sampleCount * 2)
    ++ [87, 65, 86, 69]
    ++ [102, 109, 116, 32]
    ++ u32le 16
    ++ u16le 1
    ++ u16le channels
    ++ u32le sampleRate
    ++ u32le (sampleRate * channels * 2)
    ++ u16le (channels * 2)
    ++ u16le 16
    ++ [100, 97, 116, 97]
    ++ u32le (sampleCount * 2)

/-- Embeds `AudioUtils.encodeWAV` (recognition.ts lines 271-307): the header
followed by each sample written little-endian via `setInt16`. -/
def encodeWAV (samples : List ℤ) (sampleRate : ℕ := 16000) (channels : ℕ := 1) : List ℕ :=
  wavHeader samples.length sampleRate channels ++ (samples.map i16le).flatten

/-- Little-endian 16-bit read from a byte list, used to parse header fields
back out of an encoded WAV buffer. -/
def readU16le (bs : List ℕ) (off : ℕ) : ℕ :=
  bs.getD off 0 + 256 * bs.getD (off + 1) 0

/-- Little-endian 32-bit read from a byte list. -/
def readU32le (bs : List ℕ) (off : ℕ) : ℕ :=
  bs.getD off 0 + 256 * bs.getD (off + 1) 0 + 65536 * bs.getD (off + 2) 0
    + 16777216 * bs.getD (off + 3) 0

/-! ### Claim C6 -/

lemma resample_ne (data : List ℚ) (rIn rOut : ℕ) (h : rIn ≠ rOut) :
    resample data rIn rOut =
      (List.range (Nat.ceil ((data.length : ℚ) / ((rIn : ℚ) / (rOut : ℚ))))).map
        (fun (i : ℕ) => data.getD (Nat.floor ((i : ℚ) * ((rIn : ℚ) / (rOut : ℚ)))) 0) := by
  unfold resample
  rw [if_neg h]

lemma resample_length (data : List ℚ) (rIn rOut : ℕ) (h : rIn ≠ rOut) (hIn : 0 < rIn) :
    (resample data rIn rOut).length = Nat.ceil ((data.length * rOut : ℚ) / rIn) := by
  rw [resample_ne data rIn rOut h, List.length_map, List.length_range]
  congr 1
  rw [div_div_eq_mul_div]

lemma resample_index_lt (data : List ℚ) (rIn rOut : ℕ) (h : rIn ≠ rOut)
    (hIn : 0 < rIn) (hOut : 0 < rOut) (i : ℕ) (hi : i < (resample data rIn rOut).length) :
    i * rIn / rOut < data.length := by
  rw [resample_length data rIn rOut h hIn] at hi
  have h1 : (i : ℚ) < (data.length * rOut : ℚ) / rIn := Nat.lt_ceil.mp hi
  have hInQ : (0 : ℚ) < (rIn : ℚ) := by exact_mod_cast hIn
  have h2 : (i : ℚ) * rIn < (data.length * rOut : ℚ) := by
    rw [div_eq_mul_inv] at h1
    calc (i : ℚ) * rIn < ((data.length * rOut : ℚ) * (rIn : ℚ)⁻¹) * rIn := by
          exact mul_lt_mul_of_pos_right h1 hInQ
      _ = (data.length * rOut : ℚ) := by field_simp
  have h3 : i * rIn < data.length * rOut := by exact_mod_cast h2
  exact (Nat.div_lt_iff_lt_mul hOut).mpr h3

lemma resample_get (data : List ℚ) (rIn rOut : ℕ) (h : rIn ≠ rOut)
    (hOut : 0 < rOut) (i : ℕ) (hi : i < (resample data rIn rOut).length) :
    (resample data rIn rOut).getD i 0 = data.getD (i * rIn / rOut) 0 := by
  have hi' : i < (resample data rIn rOut).length := hi
  rw [resample_ne data rIn rOut h] at hi' ⊢
  rw [List.length_map, List.length_range] at hi'
  rw [List.getD_eq_getElem _ _ (by simpa using hi'), List.getElem_map, List.getElem_range]
  congr 1
  have : (i : ℚ) * ((rIn : ℚ) / (rOut : ℚ)) = ((i * rIn : ℕ) : ℚ) / ((rOut : ℕ) : ℚ) := by
    push_cast
    ring
  rw [this, Nat.floor_div_nat, Nat.floor_natCast]

/-- Claim C6: `resample` is the identity when the rates are equal; otherwise
the output has length `⌈data.length * outputRate / inputRate⌉` and its `i`-th
element is the input element at index `⌊i * inputRate / outputRate⌋`
(nearest-neighbor decimation), that index always being in bounds. -/
theorem c6_resample_spec :
    (∀ (data : List ℚ) (r : ℕ), resample data r r = data) ∧
    (∀ (data : List ℚ) (rIn rOut : ℕ), rIn ≠ rOut → 0 < rIn → 0 < rOut →
      (resample data rIn rOut).length = Nat.ceil ((data.length * rOut : ℚ) / rIn) ∧
      ∀ i < (resample data rIn rOut).length,
        i * rIn / rOut < data.length ∧
        (resample data rIn rOut).getD i 0 = data.getD (i * rIn / rOut) 0) := by
  refine ⟨fun data r => by simp [resample], fun data rIn rOut h hIn hOut => ?_⟩
  refine ⟨resample_length data rIn rOut h hIn, fun i hi => ?_⟩
  exact ⟨resample_index_lt data rIn rOut h hIn hOut i hi,
    resample_get data rIn rOut h hOut i hi⟩

/-- Witness for C6 at a concrete input: downsampling four samples from rate 4
to rate 2 keeps every other sample. -/
theorem c6_resample_spec_witness :
    (resample [(1 : ℚ), 2, 3, 4] 4 2).length = Nat.ceil ((([(1 : ℚ), 2, 3, 4].length * 2 : ℕ) : ℚ) / (4 : ℕ)) ∧
    1 * 4 / 2 < [(1 : ℚ), 2, 3, 4].length ∧
    (resample [(1 : ℚ), 2, 3, 4] 4 2).getD 1 0 = [(1 : ℚ), 2, 3, 4].getD (1 * 4 / 2) 0 := by
  have h := c6_resample_spec.2 [(1 : ℚ), 2, 3, 4] 4 2 (by norm_num) (by norm_num) (by norm_num)
  have hlen : (resample [(1 : ℚ), 2, 3, 4] 4 2).length = 2 := by
    rw [h.1]
    norm_num
  have h1 := h.2 1 (by omega)
  exact ⟨by exact_mod_cast h.1, h1.1, h1.2⟩

/-! ### Claim C8 -/

lemma clamp_mem (x : ℚ) : -1 ≤ max (-1) (min 1 x) ∧ max (-1) (min 1 x) ≤ 1 :=
  ⟨le_max_left _ _, max_le (by norm_num) (min_le_left _ _)⟩

lemma clamp_of_mem (y : ℚ) (h1 : -1 ≤ y) (h2 : y ≤ 1) : max (-1) (min 1 y) = y := by
  rw [min_eq_right h2, max_eq_right h1]

lemma clamp_idem (x : ℚ) :
    max (-1) (min 1 (max (-1) (min 1 x))) = max (-1) (min 1 x) :=
  clamp_of_mem _ (clamp_mem x).1 (clamp_mem x).2

lemma pcm_roundtrip_clamped (s : ℚ) (h1 : -1 ≤ s) (h2 : s ≤ 1) (hs : max (-1) (min 1 s) = s) :
    |s - pcm16ToFloat (floatTo16BitPCMSample s)| ≤ 1 / 32767 := by
  unfold floatTo16BitPCMSample
  rw [hs]
  by_cases hneg : s < 0
  · rw [if_pos hneg]
    have htr : jsTrunc (s * 0x8000) = Int.ceil (s * 0x8000) := by
      unfold jsTrunc
      rw [if_pos (by nlinarith)]
    rw [htr]
    set k : ℤ := Int.ceil (s * 0x8000) with hk
    have hk1 : s * 32768 ≤ (k : ℚ) := Int.le_ceil _
    have hk2 : (k : ℚ) < s * 32768 + 1 := Int.ceil_lt_add_one _
    have hknp : k ≤ 0 := by
      have : Int.ceil (s * 0x8000) ≤ Int.ceil (0 : ℚ) := Int.ceil_le_ceil (by nlinarith)
      simpa using this
    unfold pcm16ToFloat
    rcases lt_or_eq_of_le hknp with hlt | heq
    · rw [if_pos hlt]
      rw [abs_le]
      constructor <;> [nlinarith; nlinarith]
    · rw [heq] at hk1 hk2 ⊢
      push_cast at hk1 hk2
      norm_num
      rw [abs_le]
      constructor <;> linarith
  · rw [if_neg hneg]
    push_neg at hneg
    have htr : jsTrunc (s * 0x7fff) = Int.floor (s * 0x7fff) := by
      unfold jsTrunc
      rw [if_neg (by push_neg; nlinarith)]
    rw [htr]
    set k : ℤ := Int.floor (s * 0x7fff) with hk
    have hk1 : (k : ℚ) ≤ s * 32767 := Int.floor_le _
    have hk2 : s * 32767 < (k : ℚ) + 1 := Int.lt_floor_add_one _
    have hknn : 0 ≤ k := by
      have : Int.floor (0 : ℚ) ≤ Int.floor (s * 0x7fff) := Int.floor_le_floor (by nlinarith)
      simpa using this
    unfold pcm16ToFloat
    rw [if_neg (by omega)]
    rw [abs_le]
    constructor <;> [nlinarith; nlinarith]

/-- Claim C8: `floatTo16BitPCM` clamps each sample to [-1,1] (the conversion
only depends on the clamped value, and its output always lies in the Int16
range -32768..32767, negative values scaled by 0x8000 and non-negative by
0x7fff); and for samples already in [-1,1], decoding by the matching scale
factor recovers the sample to within one least-significant bit (1/32767). -/
theorem c8_pcm_clamp_roundtrip :
    (∀ x : ℚ, floatTo16BitPCMSample x = floatTo16BitPCMSample (max (-1) (min 1 x))) ∧
    (∀ x : ℚ, -32768 ≤ floatTo16BitPCMSample x ∧ floatTo16BitPCMSample x ≤ 32767) ∧
    (∀ x : ℚ, -1 ≤ x → x ≤ 1 →
      |x - pcm16ToFloat (floatTo16BitPCMSample x)| ≤ 1 / 32767) := by
  refine ⟨?_, ?_, ?_⟩
  · intro x
    unfold floatTo16BitPCMSample
    rw [clamp_idem]
  · intro x
    have hc := clamp_mem x
    unfold floatTo16BitPCMSample
    set s := max (-1) (min 1 x) with hsdef
    by_cases hneg : s < 0
    · rw [if_pos hneg]
      have htr : jsTrunc (s * 0x8000) = Int.ceil (s * 0x8000) := by
        unfold jsTrunc
        rw [if_pos (by nlinarith)]
      rw [htr]
      have h1 : ((-32768 : ℤ) : ℚ) ≤ s * 0x8000 := by push_cast; nlinarith [hc.1]
      have h2 : Int.ceil (s * 0x8000) ≤ Int.ceil (0 : ℚ) := Int.ceil_le_ceil (by nlinarith)
      constructor
      · have := Int.ceil_le_ceil h1
        simpa using this.trans_eq' (by rw [Int.ceil_intCast])
      · simp only [Int.ceil_zero] at h2
        omega
    · rw [if_neg hneg]
      push_neg at hneg
      have htr : jsTrunc (s * 0x7fff) = Int.floor (s * 0x7fff) := by
        unfold jsTrunc
        rw [if_neg (by push_neg; nlinarith)]
      rw [htr]
      constructor
      · have : Int.floor (0 : ℚ) ≤ Int.floor (s * 0x7fff) := Int.floor_le_floor (by nlinarith)
        simp only [Int.floor_zero] at this
        omega
      · have h1 : s * 0x7fff ≤ ((32767 : ℤ) : ℚ) := by push_cast; nlinarith [hc.2]
        have := Int.floor_le_floor h1
        simpa using this.trans_eq (by rw [Int.floor_intCast])
  · intro x h1 h2
    refine pcm_roundtrip_clamped x h1 h2 ?_
    rw [min_eq_right h2, max_eq_right h1]

/-- Witness for C8 at the concrete sample 1/3. -/
theorem c8_pcm_clamp_roundtrip_witness :
    (-1 : ℚ) ≤ 1/3 ∧ (1/3 : ℚ) ≤ 1 ∧
    |(1/3 : ℚ) - pcm16ToFloat (floatTo16BitPCMSample (1/3))| ≤ 1 / 32767 :=
  ⟨by norm_num, by norm_num,
    c8_pcm_clamp_roundtrip.2.2 (1/3) (by norm_num) (by norm_num)⟩

/-! ### Claim C5 -/

lemma wavHeader_length (n r c : ℕ) : (wavHeader n r c).length = 44 := rfl

lemma readU16le_append (l l' : List ℕ) (k : ℕ) :
    readU16le (l ++ l') (l.length + k) = readU16le l' k := by
  unfold readU16le
  rw [List.getD_append_right l l' 0 (l.length + k) (by omega),
    List.getD_append_right l l' 0 (l.length + k + 1) (by omega)]
  have e1 : l.length + k - l.length = k := by omega
  have e2 : l.length + k + 1 - l.length = k + 1 := by omega
  rw [e1, e2]

lemma i16le_bound (v : ℤ) : (v % 65536).toNat < 65536 := by
  have h1 : 0 ≤ v % 65536 := Int.emod_nonneg v (by norm_num)
  have h2 : v % 65536 < 65536 := Int.emod_lt_of_pos v (by norm_num)
  omega

lemma flatten_i16le_read (samples : List ℤ) :
    ∀ i < samples.length,
      readU16le ((samples.map i16le).flatten) (2 * i) = ((samples.getD i 0) % 65536).toNat := by
  induction samples with
  | nil => intro i hi; simp at hi
  | cons a t ih =>
    intro i hi
    cases i with
    | zero =>
      show readU16le (i16le a ++ (t.map i16le).flatten) 0 = ((a % 65536).toNat)
      have hb := i16le_bound a
      show (a % 65536).toNat % 256 + 256 * ((a % 65536).toNat / 256) = (a % 65536).toNat
      omega
    | succ j =>
      have hj : j < t.length := by simpa using hi
      have h2 : 2 * (j + 1) = (i16le a).length + 2 * j := by
        show 2 * (j + 1) = 2 + 2 * j
        omega
      show readU16le (i16le a ++ (t.map i16le).flatten) (2 * (j + 1))
          = (((a :: t).getD (j + 1) 0) % 65536).toNat
      rw [h2, readU16le_append]
      simpa using ih j hj

/-- Claim C5: `encodeWAV` produces a buffer of byte length exactly
`44 + samples.length * 2`; the header fields parse back (little-endian) to
ChunkSize `36 + dataSize`, the channel count, the sample rate, ByteRate
`sampleRate * channels * 2`, BlockAlign `channels * 2`, BitsPerSample 16 and
dataSize `samples.length * 2`; the data section holds the raw samples
little-endian (16-bit two's complement); and on the concrete input
`[0, 100, -100, 32767, -32768]` at 16000 Hz mono the byte length is 54,
bytes 24..27 decode to 16000 and bytes 34..35 decode to 16. -/
theorem c5_encodeWAV_spec :
    (∀ (samples : List ℤ) (rate ch : ℕ),
      (encodeWAV samples rate ch).length = 44 + samples.length * 2) ∧
    (∀ (samples : List ℤ) (rate ch : ℕ),
      36 + samples.length * 2 < 4294967296 → rate < 4294967296 → ch < 65536 →
      rate * ch * 2 < 4294967296 → ch * 2 < 65536 →
      readU32le (encodeWAV samples rate ch) 4 = 36 + samples.length * 2 ∧
      readU16le (encodeWAV samples rate ch) 22 = ch ∧
      readU32le (encodeWAV samples rate ch) 24 = rate ∧
      readU32le (encodeWAV samples rate ch) 28 = rate * ch * 2 ∧
      readU16le (encodeWAV samples rate ch) 32 = ch * 2 ∧
      readU16le (encodeWAV samples rate ch) 34 = 16 ∧
      readU32le (encodeWAV samples rate ch) 40 = samples.length * 2 ∧
      ∀ i < samples.length,
        readU16le (encodeWAV samples rate ch) (44 + 2 * i)
          = ((samples.getD i 0) % 65536).toNat) ∧
    (encodeWAV [0, 100, -100, 32767, -32768] 16000 1).length = 54 ∧
    readU32le (encodeWAV [0, 100, -100, 32767, -32768] 16000 1) 24 = 16000 ∧
    readU16le (encodeWAV [0, 100, -100, 32767, -32768] 16000 1) 34 = 16 := by
  refine ⟨?_, ?_, by decide, by decide, by decide⟩
  · intro samples rate ch
    have hf : ((samples.map i16le).flatten).length = samples.length * 2 := by
      induction samples with
      | nil => simp
      | cons a t ih =>
        show ((i16le a ++ (t.map i16le).flatten)).length = (t.length + 1) * 2
        rw [List.length_append, ih]
        show 2 + t.length * 2 = (t.length + 1) * 2
        omega
    unfold encodeWAV
    rw [List.length_append, wavHeader_length, hf]
  · intro samples rate ch hsz hrate hch hbr hba
    refine ⟨?_, ?_, ?_, ?_, ?_, ?_, ?_, ?_⟩
    · have h : readU32le (encodeWAV samples rate ch) 4
          = (36 + samples.length * 2) % 256 + 256 * ((36 + samples.length * 2) / 256 % 256)
            + 65536 * ((36 + samples.length * 2) / 65536 % 256)
            + 16777216 * ((36 + samples.length * 2) / 16777216 % 256) := by
        simp [encodeWAV, wavHeader, u32le, u16le, readU32le]
      omega
    · have h : readU16le (encodeWAV samples rate ch) 22
          = ch % 256 + 256 * (ch / 256 % 256) := by
        simp [encodeWAV, wavHeader, u32le, u16le, readU16le]
      omega
    · have h : readU32le (encodeWAV samples rate ch) 24
          = rate % 256 + 256 * (rate / 256 % 256) + 65536 * (rate / 65536 % 256)
            + 16777216 * (rate / 16777216 % 256) := by
        simp [encodeWAV, wavHeader, u32le, u16le, readU32le]
      omega
    · have h : readU32le (encodeWAV samples rate ch) 28
          = (rate * ch * 2) % 256 + 256 * ((rate * ch * 2) / 256 % 256)
            + 65536 * ((rate * ch * 2) / 65536 % 256)
            + 16777216 * ((rate * ch * 2) / 16777216 % 256) := by
        simp [encodeWAV, wavHeader, u32le, u16le, readU32le]
      omega
    · have h : readU16le (encodeWAV samples rate ch) 32
          = (ch * 2) % 256 + 256 * ((ch * 2) / 256 % 256) := by
        simp [encodeWAV, wavHeader, u32le, u16le, readU16le]
      omega
    · show readU16le (encodeWAV samples rate ch) 34 = 16
      simp [encodeWAV, wavHeader, u32le, u16le, readU16le]
    · have h : readU32le (encodeWAV samples rate ch) 40
          = (samples.length * 2) % 256 + 256 * ((samples.length * 2) / 256 % 256)
            + 65536 * ((samples.length * 2) / 65536 % 256)
            + 16777216 * ((samples.length * 2) / 16777216 % 256) := by
        simp [encodeWAV, wavHeader, u32le, u16le, readU32le]
      omega
    · intro i hi
      have h44 : (44 : ℕ) + 2 * i = (wavHeader samples.length rate ch).length + 2 * i := by
        rw [wavHeader_length]
      unfold encodeWAV
      rw [h44, readU16le_append]
      exact flatten_i16le_read samples i hi

/-- Witness for C5: the general header theorem applied at the concrete
five-sample input of the end-to-end scenario. -/
theorem c5_encodeWAV_spec_witness :
    readU32le (encodeWAV [0, 100, -100, 32767, -32768] 16000 1) 4 = 46 ∧
    readU16le (encodeWAV [0, 100, -100, 32767, -32768] 16000 1) 22 = 1 ∧
    readU32le (encodeWAV [0, 100, -100, 32767, -32768] 16000 1) 28 = 32000 ∧
    readU16le (encodeWAV [0, 100, -100, 32767, -32768] 16000 1) 44 + 0 = 0 ∧
    readU16le (encodeWAV [0, 100, -100, 32767, -32768] 16000 1) 48 = 65436 := by
  have h := c5_encodeWAV_spec.2.1 [0, 100, -100, 32767, -32768] 16000 1
    (by norm_num) (by norm_num) (by norm_num) (by norm_num) (by norm_num)
  refine ⟨h.1, h.2.1, h.2.2.2.1, ?_, ?_⟩
  · have := h.2.2.2.2.2.2.2 0 (by norm_num)
    simpa using this
  · have := h.2.2.2.2.2.2.2 2 (by norm_num)
    simpa using this

/-! ## BaiduAdapter.parseResult (recognition.ts, lines 751-785) -/

/-- A recognition result as produced by the adapters
(`IRecognitionResult`, recognition.ts lines 73-82; the opaque `original`
payload is omitted). -/
structure RecogResult where
  transcript : String
  isFinal : Bool
  confidence : ℚ
deriving DecidableEq

/-- Shape of a decoded JSON message reaching `BaiduAdapter.parseResult`.
JSON is dynamically typed; the fields the function reads are modelled as
optional slots (`err_no`/`err_msg`/`result` for the HTTP response shape,
`type`/`result` for the WebSocket shape; the `result` field is a string
array in the HTTP shape and a string in the WebSocket shape). -/
structure BaiduMsg where
  errNo : Option ℤ := none
  errMsg : Option String := none
  resultArr : Option (List String) := none
  msgType : Option String := none
  resultStr : Option String := none

/-- The WebSocket-response part of `BaiduAdapter.parseResult` (recognition.ts
lines 768-784): `if (data['type'])` is a JS truthiness test, so an absent or
empty `type` skips the block and the function returns null; HEARTBEAT maps to
null, ERROR throws, MID_TEXT and FIN_TEXT map to a result that is final
exactly for FIN_TEXT, with confidence 0.9. -/
def baiduParseWs (d : BaiduMsg) : Except String (Option RecogResult) :=
  match d.msgType with
  | some t =>
    if t = "" then Except.ok none
    else if t = "HEARTBEAT" then Except.ok none
    else if t = "ERROR" then Except.error ("Baidu WS Error: " ++ d.errMsg.getD "undefined")
    else if t = "MID_TEXT" ∨ t = "FIN_TEXT" then
      Except.ok (some { transcript := d.resultStr.getD ""
                        isFinal := t = "FIN_TEXT"
                        confidence := 9/10 })
    else Except.ok none
  | none => Except.ok none

/-- Embeds `BaiduAdapter.parseResult` (recognition.ts lines 751-785).  The
HTTP branch runs first (`err_no !== undefined`): a non-zero `err_no` throws;
`err_no = 0` with a non-empty `result` array yields a final result; otherwise
control falls through to the WebSocket branch. -/
def baiduParseResult (d : BaiduMsg) : Except String (Option RecogResult) :=
  match d.errNo with
  | some n =>
    if n ≠ 0 then Except.error ("Baidu API Error: " ++ d.errMsg.getD "undefined")
    else
      match d.resultArr with
      | some arr =>
        if 0 < arr.length then
          Except.ok (some { transcript := arr.headD ""
                            isFinal := true
                            confidence := 9/10 })
        else baiduParseWs d
      | none => baiduParseWs d
  | none => baiduParseWs d

/-! ### Claim C9 -/

/-- Claim C9: `BaiduAdapter.parseResult` maps `type:'MID_TEXT', result:'你'`
to a non-final result with transcript `你`, maps `type:'FIN_TEXT',
result:'你好世界'` to a final result with transcript `你好世界`, and maps a
heartbeat message (`type:'HEARTBEAT'`) to null. -/
theorem c9_baidu_parse :
    baiduParseResult { msgType := some "MID_TEXT", resultStr := some "你" }
      = Except.ok (some { transcript := "你", isFinal := false, confidence := 9/10 }) ∧
    baiduParseResult { msgType := some "FIN_TEXT", resultStr := some "你好世界" }
      = Except.ok (some { transcript := "你好世界", isFinal := true, confidence := 9/10 }) ∧
    baiduParseResult { msgType := some "HEARTBEAT" }
      = Except.ok none := by
  refine ⟨?_, ?_, ?_⟩ <;> simp [baiduParseResult, baiduParseWs]

/-! ## Outbound frame handling: CloudRecognitionStrategy.handlePCM /
flushMsgQueue (recognition.ts, lines 1609-1645) -/

/-- The readyState values of the underlying WebSocket that `handlePCM`
distinguishes; a torn-down or closed socket falls into `CLOSED`. -/
inductive WSReadyState where
  | CONNECTING
  | OPEN
  | CLOSED
deriving DecidableEq

/-- State of the WebSocket transport as far as outbound frames are
concerned: the socket readyState, the bounded message queue `msgQueue`
(recognition.ts line 1320), the ordered log of frames actually passed to
`socket.send`, and a count of error events emitted by the outbound path
(the source emits none). -/
structure TransportState where
  readyState : WSReadyState
  msgQueue : List ℕ
  sentFrames : List ℕ
  errorEvents : ℕ
deriving DecidableEq

/-- `MSG_QUEUE_MAX` (recognition.ts line 1321). -/
def MSG_QUEUE_MAX : ℕ := 50

/-- Embeds `flushMsgQueue` (recognition.ts lines 1638-1645): while the queue
is non-empty and the socket is OPEN, shift the oldest frame and send it. -/
def flushMsgQueue (s : TransportState) : TransportState :=
  match s.readyState with
  | WSReadyState.OPEN =>
    { s with msgQueue := [], sentFrames := s.sentFrames ++ s.msgQueue }
  | _ => s

/-- Embeds the WebSocket branch of `handlePCM` (recognition.ts lines
1609-1626) with the identity outbound transform: if the socket is OPEN,
flush the queue then send the frame; if CONNECTING, enqueue only while the
queue holds fewer than `MSG_QUEUE_MAX` frames (overflow is silently
dropped); otherwise drop the frame. -/
def handlePCM (s : TransportState) (frame : ℕ) : TransportState :=
  match s.readyState with
  | WSReadyState.OPEN =>
    let s' := flushMsgQueue s
    { s' with sentFrames := s'.sentFrames ++ [frame] }
  | WSReadyState.CONNECTING =>
    if s.msgQueue.length < MSG_QUEUE_MAX then { s with msgQueue := s.msgQueue ++ [frame] }
    else s
  | WSReadyState.CLOSED => s

/-- A sequence of produced audio frames fed through `handlePCM` in capture
order. -/
def processFrames (s : TransportState) (frames : List ℕ) : TransportState :=
  frames.foldl handlePCM s

/-! ### Claim C2 -/

lemma processFrames_connecting (frames : List ℕ) :
    ∀ (q sent : List ℕ) (e : ℕ), q.length ≤ 50 →
      processFrames { readyState := WSReadyState.CONNECTING, msgQueue := q,
                      sentFrames := sent, errorEvents := e } frames
        = { readyState := WSReadyState.CONNECTING, msgQueue := (q ++ frames).take 50,
            sentFrames := sent, errorEvents := e } := by
  induction frames with
  | nil =>
    intro q sent e hq
    simp [processFrames, List.take_of_length_le hq]
  | cons f t ih =>
    intro q sent e hq
    show processFrames (handlePCM _ f) t = _
    by_cases hlt : q.length < 50
    · have hstep :
          handlePCM
            { readyState := WSReadyState.CONNECTING, msgQueue := q,
              sentFrames := sent, errorEvents := e } f
            = { readyState := WSReadyState.CONNECTING, msgQueue := q ++ [f],
                sentFrames := sent, errorEvents := e } := by
        simp [handlePCM, MSG_QUEUE_MAX, hlt]
      rw [hstep, ih (q ++ [f]) sent e (by simp; omega)]
      simp
    · have hq50 : q.length = 50 := by omega
      have hstep :
          handlePCM
            { readyState := WSReadyState.CONNECTING, msgQueue := q,
              sentFrames := sent, errorEvents := e } f
            = { readyState := WSReadyState.CONNECTING, msgQueue := q,
                sentFrames := sent, errorEvents := e } := by
        simp [handlePCM, MSG_QUEUE_MAX, hlt]
      rw [hstep, ih q sent e hq]
      have h1 : (q ++ t).take 50 = q := by
        rw [← hq50, List.take_left]
      have h2 : (q ++ f :: t).take 50 = q := by
        rw [← hq50, List.take_left]
      rw [h1, h2]

/-- Claim C2: feeding more than 50 frames while the socket is CONNECTING
enqueues exactly the first 50 (in capture order) and silently drops the rest
without any error event; the first frame produced after the socket is OPEN
first drains the 50 queued frames FIFO and is sent after them; `handlePCM`
never leaves a frame enqueued while the socket is OPEN; and frames produced
while the socket is CLOSED are dropped. -/
theorem c2_queue_cap :
    (∀ frames : List ℕ, 50 < frames.length →
      processFrames { readyState := WSReadyState.CONNECTING, msgQueue := [],
                      sentFrames := [], errorEvents := 0 } frames
        = { readyState := WSReadyState.CONNECTING, msgQueue := frames.take 50,
            sentFrames := [], errorEvents := 0 }) ∧
    (∀ (frames : List ℕ) (f : ℕ), 50 < frames.length →
      handlePCM { processFrames { readyState := WSReadyState.CONNECTING, msgQueue := [],
                                  sentFrames := [], errorEvents := 0 } frames
                  with readyState := WSReadyState.OPEN } f
        = { readyState := WSReadyState.OPEN, msgQueue := [],
            sentFrames := frames.take 50 ++ [f], errorEvents := 0 }) ∧
    (∀ (s : TransportState) (f : ℕ), s.readyState = WSReadyState.OPEN →
      (handlePCM s f).msgQueue = [] ∧
      (handlePCM s f).sentFrames = s.sentFrames ++ s.msgQueue ++ [f]) ∧
    (∀ (s : TransportState) (f : ℕ), s.readyState = WSReadyState.CLOSED →
      handlePCM s f = s) := by
  refine ⟨?_, ?_, ?_, ?_⟩
  · intro frames hlen
    exact processFrames_connecting frames [] [] 0 (by simp)
  · intro frames f hlen
    rw [processFrames_connecting frames [] [] 0 (by simp)]
    simp [handlePCM, flushMsgQueue]
  · intro s f hs
    obtain ⟨r, q, sent, e⟩ := s
    cases hs
    constructor <;> simp [handlePCM, flushMsgQueue]
  · intro s f hs
    obtain ⟨r, q, sent, e⟩ := s
    cases hs
    simp [handlePCM]

/-- Witness for C2: 51 frames produced while CONNECTING keep exactly the
first 50, and frame 51 produced after OPEN is sent after the 50 queued
ones. -/
theorem c2_queue_cap_witness :
    processFrames { readyState := WSReadyState.CONNECTING, msgQueue := [],
                    sentFrames := [], errorEvents := 0 } (List.range 51)
      = { readyState := WSReadyState.CONNECTING, msgQueue := (List.range 51).take 50,
          sentFrames := [], errorEvents := 0 } ∧
    handlePCM { processFrames { readyState := WSReadyState.CONNECTING, msgQueue := [],
                                sentFrames := [], errorEvents := 0 } (List.range 51)
                with readyState := WSReadyState.OPEN } 100
      = { readyState := WSReadyState.OPEN, msgQueue := [],
          sentFrames := (List.range 51).take 50 ++ [100], errorEvents := 0 } :=
  ⟨c2_queue_cap.1 (List.range 51) (by simp),
    c2_queue_cap.2.1 (List.range 51) 100 (by simp)⟩

/-! ## Session state machine: CloudRecognitionStrategy
(recognition.ts, lines 1303-1758) -/

/-- `RecognitionStatus` (recognition.ts lines 49-58). -/
inductive RecognitionStatus where
  | IDLE
  | CONNECTING
  | RECORDING
  | PROCESSING
deriving DecidableEq

/-- Error codes of `IRecognitionError` (recognition.ts lines 87-101). -/
inductive ErrCode where
  | NETWORK
  | NOT_ALLOWED
  | NO_SPEECH
  | NOT_SUPPORTED
  | VAD_TIMEOUT
  | ADAPTER_ERROR
  | UNKNOWN
deriving DecidableEq

/-- Events emitted by the strategy (the `EventListeners` keys, recognition.ts
lines 1034-1046; `ended` stands for the source's `end` event). -/
inductive Evt where
  | state (s : RecognitionStatus)
  | error (c : ErrCode)
  | result
  | started
  | ended
  | soundstart
  | soundend
  | speechstart
  | speechend
  | audiostart
  | audioend
deriving DecidableEq

/-- The mutable fields of `CloudRecognitionStrategy` that the lifecycle
operations read and write in WebSocket mode: `_status` (line 1066),
`isRecordingFlag` (line 1326) and `msgQueue` (line 1320).  In WebSocket mode
`pcmChunks` stays empty (only the HTTP branch of `handlePCM` fills it), so it
is not tracked. -/
structure CloudSess where
  status : RecognitionStatus
  isRecordingFlag : Bool
  msgQueue : List ℕ
deriving DecidableEq

/-- Embeds `setStatus` (recognition.ts lines 1100-1105): writes the status
and emits a `state` event only when the status actually changes. -/
def setStatusM (s : CloudSess) (st : RecognitionStatus) : CloudSess × List Evt :=
  if s.status ≠ st then ({ s with status := st }, [Evt.state st]) else (s, [])

/-- Embeds `cleanup` (recognition.ts lines 1723-1757): clears the reconnect
timer, closes the socket, disconnects the audio nodes, clears the buffered
references including `msgQueue`, and finally `setStatus(IDLE)`. -/
def cleanupM (s : CloudSess) : CloudSess × List Evt :=
  setStatusM { s with msgQueue := [] } RecognitionStatus.IDLE

/-- Embeds `stop` (recognition.ts lines 1665-1708) in WebSocket mode: a
no-op when already IDLE; otherwise clears the recording flag, skips the HTTP
submission branch (`pcmChunks` is empty in WebSocket mode), runs `cleanup`
and emits `audioend` then `end`. -/
def stopM (s : CloudSess) : CloudSess × List Evt :=
  if s.status = RecognitionStatus.IDLE then (s, [])
  else
    let s1 : CloudSess := { s with isRecordingFlag := false }
    let r := cleanupM s1
    (r.1, r.2 ++ [Evt.audioend, Evt.ended])

/-- Embeds `abort` (recognition.ts lines 1710-1714): clears the recording
flag, runs `cleanup`, and emits `end` — with no IDLE guard. -/
def abortM (s : CloudSess) : CloudSess × List Evt :=
  let s1 : CloudSess := { s with isRecordingFlag := false }
  let r := cleanupM s1
  (r.1, r.2 ++ [Evt.ended])

/-- Embeds the `socket.onclose` handler (recognition.ts lines 1445-1449):
the reconnect path (here an arbitrary handler) runs only while the session
status is RECORDING. -/
def oncloseM (handler : CloudSess → CloudSess × List Evt) (s : CloudSess) :
    CloudSess × List Evt :=
  if s.status = RecognitionStatus.RECORDING then handler s else (s, [])

/-- Embeds the VAD-timeout path of the ScriptProcessor `onaudioprocess`
callback (recognition.ts lines 1576-1589): the callback returns immediately
when `isRecordingFlag` is false; when the silence bound is exceeded it emits
`speechend` and calls `stop()`. -/
def spVadTimeoutM (s : CloudSess) : CloudSess × List Evt :=
  if s.isRecordingFlag = false then (s, [])
  else
    let r := stopM s
    (r.1, Evt.speechend :: r.2)

/-- Embeds `start` (recognition.ts lines 1344-1397) in WebSocket mode.  The
parameter `wsConnects` tells whether `initWebSocket` resolves (socket opens
and handshake is sent within the 10 s timeout) or rejects (socket error or
timeout).  A re-entrant call while not IDLE returns immediately.  On the
success path, `initWebSocket`'s `onopen` performs `setStatus(RECORDING)`
(line 1413) and, with microphone and audio-context acquisition assumed to
succeed, `start` then emits `start` and `audiostart`.  On the failure path
the catch block (lines 1387-1396) emits `error` with code `NOT_ALLOWED`,
runs `cleanup`, and rethrows — the Boolean in the result records whether the
returned promise rejects. -/
def startM (s : CloudSess) (wsConnects : Bool) : CloudSess × List Evt × Bool :=
  if s.status ≠ RecognitionStatus.IDLE then (s, [], false)
  else
    let r1 := setStatusM s RecognitionStatus.CONNECTING
    if wsConnects then
      let r2 := setStatusM r1.1 RecognitionStatus.RECORDING
      ({ r2.1 with isRecordingFlag := true },
        r1.2 ++ r2.2 ++ [Evt.started, Evt.audiostart], false)
    else
      let r2 := cleanupM r1.1
      (r2.1, r1.2 ++ [Evt.error ErrCode.NOT_ALLOWED] ++ r2.2, true)

/-- Error codes carried by the error events of an emitted event list. -/
def errorCodes (evts : List Evt) : List ErrCode :=
  evts.filterMap (fun e => match e with | Evt.error c => some c | _ => none)

/-! ### Claim C3 -/

/-- Counterexample to C3 as stated: on an already-IDLE session a second
`abort()` changes no state but does emit a further `end` event (recognition.ts
lines 1710-1714 have no IDLE guard around `this.emit('end')`), so it is not
a no-op in the claimed sense. -/
theorem c3_counterexample :
    abortM { status := RecognitionStatus.IDLE, isRecordingFlag := false, msgQueue := [] }
      = ({ status := RecognitionStatus.IDLE, isRecordingFlag := false, msgQueue := [] },
          [Evt.ended]) ∧
    ([Evt.ended] : List Evt) ≠ [] := by
  constructor
  · rfl
  · simp

/-- Claim C3 (amended): `start()` while not IDLE is a no-op; once the session
is IDLE, `stop()`, a connection close and a ScriptProcessor VAD timeout (the
recording flag being down once IDLE) are no-ops that change no state and emit
no events; `abort()` on an idle session changes no state but re-emits one
`end` event. -/
theorem c3_reentrancy_amended :
    (∀ (s : CloudSess) (ws : Bool), s.status ≠ RecognitionStatus.IDLE →
      startM s ws = (s, [], false)) ∧
    (∀ s : CloudSess, s.status = RecognitionStatus.IDLE → stopM s = (s, [])) ∧
    (∀ (handler : CloudSess → CloudSess × List Evt) (s : CloudSess),
      s.status = RecognitionStatus.IDLE → oncloseM handler s = (s, [])) ∧
    (∀ s : CloudSess, s.isRecordingFlag = false → spVadTimeoutM s = (s, [])) ∧
    (∀ s : CloudSess, s.status = RecognitionStatus.IDLE → s.isRecordingFlag = false →
      s.msgQueue = [] → abortM s = (s, [Evt.ended])) := by
  refine ⟨?_, ?_, ?_, ?_, ?_⟩
  · intro s ws hs
    simp [startM, hs]
  · intro s hs
    simp [stopM, hs]
  · intro handler s hs
    simp [oncloseM, hs]
  · intro s hs
    simp [spVadTimeoutM, hs]
  · intro s hs hrec hq
    obtain ⟨st, f, q⟩ := s
    cases hs
    cases hrec
    cases hq
    rfl

/-- Witness for C3 (amended) at concrete states. -/
theorem c3_reentrancy_amended_witness :
    startM { status := RecognitionStatus.RECORDING, isRecordingFlag := true, msgQueue := [] }
        true
      = ({ status := RecognitionStatus.RECORDING, isRecordingFlag := true, msgQueue := [] },
          [], false) ∧
    stopM { status := RecognitionStatus.IDLE, isRecordingFlag := false, msgQueue := [] }
      = ({ status := RecognitionStatus.IDLE, isRecordingFlag := false, msgQueue := [] }, []) ∧
    spVadTimeoutM { status := RecognitionStatus.IDLE, isRecordingFlag := false, msgQueue := [] }
      = ({ status := RecognitionStatus.IDLE, isRecordingFlag := false, msgQueue := [] }, []) :=
  ⟨c3_reentrancy_amended.1 _ true (by simp),
    c3_reentrancy_amended.2.1 _ rfl,
    c3_reentrancy_amended.2.2.2.1 _ rfl⟩

/-! ### Claim C4 -/

/-- Counterexample to C4 as stated: when the WebSocket handshake fails or
times out during `start()`, the session does return to IDLE, but the emitted
error event carries code `NOT_ALLOWED` — not `NETWORK` or `ADAPTER_ERROR` —
and `start()`'s returned promise rejects (the catch block rethrows), contrary
to the claim that failures reach the caller exclusively via the error
event. -/
theorem c4_counterexample :
    (startM { status := RecognitionStatus.IDLE, isRecordingFlag := false, msgQueue := [] }
        false).2.2 = true ∧
    errorCodes
        (startM { status := RecognitionStatus.IDLE, isRecordingFlag := false, msgQueue := [] }
          false).2.1
      = [ErrCode.NOT_ALLOWED] ∧
    ErrCode.NOT_ALLOWED ≠ ErrCode.NETWORK ∧
    ErrCode.NOT_ALLOWED ≠ ErrCode.ADAPTER_ERROR ∧
    (startM { status := RecognitionStatus.IDLE, isRecordingFlag := false, msgQueue := [] }
        false).1.status = RecognitionStatus.IDLE := by
  refine ⟨rfl, rfl, ?_, ?_, rfl⟩ <;> simp

/-- Claim C4 (amended): if the WebSocket handshake fails or the 10-second
connect timeout elapses while a cloud session is Connecting, the session
transitions back to IDLE and partial resources are torn down, but the
failure is surfaced as an error event with code `NOT_ALLOWED` (the generic
start-failure handler) and `start()`'s returned promise additionally rejects
with the original failure. -/
theorem c4_start_failure_amended :
    ∀ s : CloudSess, s.status = RecognitionStatus.IDLE →
      startM s false
        = ({ s with status := RecognitionStatus.IDLE, msgQueue := [] },
            [Evt.state RecognitionStatus.CONNECTING, Evt.error ErrCode.NOT_ALLOWED,
              Evt.state RecognitionStatus.IDLE],
            true) := by
  intro s hs
  simp [startM, hs, setStatusM, cleanupM]

/-- Witness for C4 (amended) at a concrete idle session. -/
theorem c4_start_failure_amended_witness :
    startM { status := RecognitionStatus.IDLE, isRecordingFlag := false, msgQueue := [] }
        false
      = ({ status := RecognitionStatus.IDLE, isRecordingFlag := false, msgQueue := [] },
          [Evt.state RecognitionStatus.CONNECTING, Evt.error ErrCode.NOT_ALLOWED,
            Evt.state RecognitionStatus.IDLE],
          true) :=
  c4_start_failure_amended _ rfl

/-! ## Reconnection policy: CloudRecognitionStrategy.handleReconnect
(recognition.ts, lines 1456-1484), socket.onclose (lines 1445-1449) and
socket.onerror / the rejection catch (lines 1427-1430 and 1466-1475) -/

/-- Events of the single-threaded event loop that drive the reconnect
subsystem during one contiguous outage.  `closeInitial` is the `onclose` of
the established socket that starts the outage; `timerFire` is a scheduled
reconnect timer firing, which runs `initWebSocket` and so starts one
reconnect attempt; `attemptError` is a started attempt failing: its
`onerror` (line 1427) rejects the `initWebSocket` promise and the catch in
the timer callback (lines 1472-1474) calls `handleReconnect`
unconditionally; `attemptClose` is a started attempt's socket closing: its
`onclose` (lines 1445-1449) calls `handleReconnect` only while the session
status is RECORDING — a browser WebSocket that fails to connect fires error
and then close, so one failed attempt produces BOTH an `attemptError` and an
`attemptClose` event; `attemptOpen` is a started attempt's `onopen` (lines
1411-1414), which sets the status to RECORDING and resets
`reconnectAttempts` to 0. -/
inductive RcEvt where
  | closeInitial
  | timerFire
  | attemptError
  | attemptClose
  | attemptOpen
deriving DecidableEq

/-- The strategy fields the reconnect subsystem reads and writes: `_status`,
`reconnectAttempts`, the number of `error{NETWORK}` events emitted so far,
the number of reconnect timers scheduled by `handleReconnect`, and the
number of reconnect attempts whose `initWebSocket` has actually begun. -/
structure RcState where
  status : RecognitionStatus
  counter : ℕ
  networkErrors : ℕ
  scheduled : ℕ
  started : ℕ
deriving DecidableEq

/-- Embeds `stop` (recognition.ts lines 1665-1708) as it affects the
reconnect fields: a no-op when already IDLE, otherwise `cleanup` forces the
status to IDLE.  (`cleanup` also clears the timer currently referenced by
`reconnectTimer`; the model omits the clearing, which only enlarges the set
of schedules `timerFire` may realise — see `rcStep`.) -/
def rcStop (s : RcState) : RcState :=
  if s.status = RecognitionStatus.IDLE then s
  else { s with status := RecognitionStatus.IDLE }

/-- Embeds one entry into `handleReconnect` (recognition.ts lines 1456-1484)
with `autoReconnect` enabled: if `reconnectAttempts < maxAttempts`, the
counter is incremented and one reconnect timer is scheduled; otherwise an
`error{NETWORK}` is emitted and `stop()` is called. -/
def rcHandleReconnect (maxAttempts : ℕ) (s : RcState) : RcState :=
  if s.counter < maxAttempts then
    { s with counter := s.counter + 1, scheduled := s.scheduled + 1 }
  else
    rcStop { s with networkErrors := s.networkErrors + 1 }

/-- One event of the event loop.  The handlers ignore which attempt an event
belongs to (their bodies only touch the shared strategy fields), so attempts
are tracked by count: a timer may fire whenever one is scheduled and not yet
started (timers cleared by `cleanup` may not fire in the source; allowing
them here only adds schedules, so every source execution is a schedule of
this model), and error/close/open events require some started attempt.  The
source fires error and close at most once per attempt; schedules violating
that are again extra behaviours, never missing ones. -/
def rcStep (maxAttempts : ℕ) (s : RcState) (e : RcEvt) : RcState :=
  match e with
  | RcEvt.closeInitial =>
    if s.status = RecognitionStatus.RECORDING then rcHandleReconnect maxAttempts s else s
  | RcEvt.timerFire =>
    if s.started < s.scheduled then { s with started := s.started + 1 } else s
  | RcEvt.attemptError =>
    if 0 < s.started then rcHandleReconnect maxAttempts s else s
  | RcEvt.attemptClose =>
    if 0 < s.started ∧ s.status = RecognitionStatus.RECORDING then
      rcHandleReconnect maxAttempts s
    else s
  | RcEvt.attemptOpen =>
    if 0 < s.started then
      { s with status := RecognitionStatus.RECORDING, counter := 0 }
    else s

/-- A schedule of event-loop events processed in order. -/
def runRc (maxAttempts : ℕ) (evts : List RcEvt) (s : RcState) : RcState :=
  evts.foldl (rcStep maxAttempts) s

/-- The state at the start of an outage: the session is RECORDING with a
fresh counter and no reconnect activity yet. -/
def rcInit : RcState :=
  { status := RecognitionStatus.RECORDING, counter := 0, networkErrors := 0,
    scheduled := 0, started := 0 }

/-! ### Claim C1 -/

/-- Counterexample to C1 as stated: a contiguous outage under `maxAttempts =
3` that emits TWO `error{NETWORK}` events, not exactly one.  The schedule is
realisable by the source under the standard error-then-close WebSocket event
order: the established socket closes; attempt 1 is started and fails — its
rejection catch re-enters `handleReconnect` (counter 1→2, second timer) and
then its `onclose` re-enters `handleReconnect` again, the status still being
RECORDING (counter 2→3, third timer); both timers fire, starting attempts 2
and 3 concurrently; attempt 2 fails with the budget exhausted, emitting the
first `error{NETWORK}` and stopping the session; attempt 3 then fails, and
its rejection catch — which has no status guard — re-enters
`handleReconnect` once more, emitting a second `error{NETWORK}`.  (No timer
cleared by `cleanup` fires in this schedule: the reference cleared at the
first stop is attempt 3's timer, which has already fired.) -/
theorem c1_counterexample :
    runRc 3
      [RcEvt.closeInitial, RcEvt.timerFire, RcEvt.attemptError, RcEvt.attemptClose,
        RcEvt.timerFire, RcEvt.timerFire, RcEvt.attemptError, RcEvt.attemptClose,
        RcEvt.attemptError, RcEvt.attemptClose] rcInit
      = { status := RecognitionStatus.IDLE, counter := 3, networkErrors := 2,
          scheduled := 3, started := 3 } ∧
    (2 : ℕ) ≠ 1 := by
  constructor
  · rfl
  · omega

/-- The run invariant of a contiguous outage with no successful
reconnection: every started attempt was scheduled, every scheduled timer
came from one counter increment, the counter never exceeds the budget, and
once a NETWORK error has been emitted the session is IDLE with the budget
exhausted. -/
def RcInv (maxAttempts : ℕ) (s : RcState) : Prop :=
  s.started ≤ s.scheduled ∧ s.scheduled = s.counter ∧ s.counter ≤ maxAttempts ∧
    (1 ≤ s.networkErrors → s.status = RecognitionStatus.IDLE ∧ maxAttempts ≤ s.counter)

lemma rcInv_hr (maxAttempts : ℕ) (s : RcState) (h : RcInv maxAttempts s) :
    RcInv maxAttempts (rcHandleReconnect maxAttempts s) := by
  obtain ⟨h1, h2, h3, h4⟩ := h
  unfold rcHandleReconnect
  by_cases hlt : s.counter < maxAttempts
  · rw [if_pos hlt]
    refine ⟨?_, ?_, ?_, ?_⟩
    · show s.started ≤ s.scheduled + 1
      omega
    · show s.scheduled + 1 = s.counter + 1
      omega
    · show s.counter + 1 ≤ maxAttempts
      omega
    · intro he
      exact absurd (h4 he).2 (by omega)
  · rw [if_neg hlt]
    unfold rcStop
    by_cases hidle : s.status = RecognitionStatus.IDLE
    · rw [if_pos hidle]
      exact ⟨h1, h2, h3, fun _ => ⟨hidle, show maxAttempts ≤ s.counter by omega⟩⟩
    · rw [if_neg hidle]
      exact ⟨h1, h2, h3, fun _ => ⟨rfl, show maxAttempts ≤ s.counter by omega⟩⟩

lemma rcInv_step (maxAttempts : ℕ) (s : RcState) (e : RcEvt)
    (he : e ≠ RcEvt.attemptOpen) (h : RcInv maxAttempts s) :
    RcInv maxAttempts (rcStep maxAttempts s e) := by
  obtain ⟨h1, h2, h3, h4⟩ := h
  cases e with
  | closeInitial =>
    show RcInv maxAttempts
      (if s.status = RecognitionStatus.RECORDING then rcHandleReconnect maxAttempts s else s)
    by_cases hs : s.status = RecognitionStatus.RECORDING
    · rw [if_pos hs]
      exact rcInv_hr maxAttempts s ⟨h1, h2, h3, h4⟩
    · rw [if_neg hs]
      exact ⟨h1, h2, h3, h4⟩
  | timerFire =>
    show RcInv maxAttempts
      (if s.started < s.scheduled then { s with started := s.started + 1 } else s)
    by_cases hs : s.started < s.scheduled
    · rw [if_pos hs]
      exact ⟨hs, h2, h3, fun he' => h4 he'⟩
    · rw [if_neg hs]
      exact ⟨h1, h2, h3, h4⟩
  | attemptError =>
    show RcInv maxAttempts
      (if 0 < s.started then rcHandleReconnect maxAttempts s else s)
    by_cases hs : 0 < s.started
    · rw [if_pos hs]
      exact rcInv_hr maxAttempts s ⟨h1, h2, h3, h4⟩
    · rw [if_neg hs]
      exact ⟨h1, h2, h3, h4⟩
  | attemptClose =>
    show RcInv maxAttempts
      (if 0 < s.started ∧ s.status = RecognitionStatus.RECORDING then
        rcHandleReconnect maxAttempts s
      else s)
    by_cases hs : 0 < s.started ∧ s.status = RecognitionStatus.RECORDING
    · rw [if_pos hs]
      exact rcInv_hr maxAttempts s ⟨h1, h2, h3, h4⟩
    · rw [if_neg hs]
      exact ⟨h1, h2, h3, h4⟩
  | attemptOpen =>
    exact absurd rfl he

lemma rcInv_run (maxAttempts : ℕ) :
    ∀ evts : List RcEvt, RcEvt.attemptOpen ∉ evts →
      ∀ s : RcState, RcInv maxAttempts s → RcInv maxAttempts (runRc maxAttempts evts s) := by
  intro evts
  induction evts with
  | nil =>
    intro _ s h
    exact h
  | cons e t ih =>
    intro hopen s h
    have he : e ≠ RcEvt.attemptOpen := fun hcon => hopen (hcon ▸ List.mem_cons_self e t)
    have ht : RcEvt.attemptOpen ∉ t := fun hm => hopen (List.mem_cons_of_mem e hm)
    exact ih ht (rcStep maxAttempts s e) (rcInv_step maxAttempts s e he h)

/-- Claim C1 (amended): every entry into `handleReconnect` under the budget
increments the counter by one and schedules exactly one reconnect attempt;
every entry with the budget exhausted emits one `error{NETWORK}` and leaves
the session IDLE; a successful reconnection (`onopen`) resets the counter to
0 and the status to RECORDING; and over every schedule of a contiguous
outage with no successful reconnection — including the schedules in which a
failed attempt re-enters `handleReconnect` from both the rejection catch and
its socket's `onclose` — at most `maxReconnectAttempts` reconnect attempts
are ever started, and once a NETWORK error has been emitted the session is
IDLE.  (It is NOT true that exactly one `error{NETWORK}` is emitted per
outage, nor that the attempts consumed equal the failures observed: the
double re-entry can burn the budget faster and emit several NETWORK errors,
see the counterexample.) -/
theorem c1_reconnect_amended :
    (∀ (maxAttempts : ℕ) (s : RcState), s.counter < maxAttempts →
      rcHandleReconnect maxAttempts s
        = { s with counter := s.counter + 1, scheduled := s.scheduled + 1 }) ∧
    (∀ (maxAttempts : ℕ) (s : RcState), maxAttempts ≤ s.counter →
      (rcHandleReconnect maxAttempts s).networkErrors = s.networkErrors + 1 ∧
      (rcHandleReconnect maxAttempts s).status = RecognitionStatus.IDLE) ∧
    (∀ (maxAttempts : ℕ) (s : RcState), 0 < s.started →
      rcStep maxAttempts s RcEvt.attemptOpen
        = { s with status := RecognitionStatus.RECORDING, counter := 0 }) ∧
    (∀ (maxAttempts : ℕ) (evts : List RcEvt), RcEvt.attemptOpen ∉ evts →
      (runRc maxAttempts evts rcInit).started ≤ maxAttempts ∧
      (1 ≤ (runRc maxAttempts evts rcInit).networkErrors →
        (runRc maxAttempts evts rcInit).status = RecognitionStatus.IDLE)) := by
  refine ⟨?_, ?_, ?_, ?_⟩
  · intro maxAttempts s h
    unfold rcHandleReconnect
    rw [if_pos h]
  · intro maxAttempts s h
    unfold rcHandleReconnect
    rw [if_neg (by omega)]
    unfold rcStop
    by_cases hidle : s.status = RecognitionStatus.IDLE
    · rw [if_pos hidle]
      exact ⟨rfl, hidle⟩
    · rw [if_neg hidle]
      exact ⟨rfl, rfl⟩
  · intro maxAttempts s h
    show (if 0 < s.started then
        { s with status := RecognitionStatus.RECORDING, counter := 0 }
      else s) = _
    rw [if_pos h]
  · intro maxAttempts evts hopen
    have hinit : RcInv maxAttempts rcInit :=
      ⟨Nat.le_refl 0, rfl, Nat.zero_le maxAttempts, fun he => by simp [rcInit] at he⟩
    obtain ⟨g1, g2, g3, g4⟩ := rcInv_run maxAttempts evts hopen rcInit hinit
    exact ⟨by omega, fun he => (g4 he).1⟩

/-- Witness for C1 (amended) at concrete states and a concrete schedule. -/
theorem c1_reconnect_amended_witness :
    rcHandleReconnect 3 rcInit = { rcInit with counter := 1, scheduled := 1 } ∧
    (rcHandleReconnect 3
        { status := RecognitionStatus.RECORDING, counter := 3, networkErrors := 0,
          scheduled := 3, started := 3 }).networkErrors = 1 ∧
    (rcHandleReconnect 3
        { status := RecognitionStatus.RECORDING, counter := 3, networkErrors := 0,
          scheduled := 3, started := 3 }).status = RecognitionStatus.IDLE ∧
    rcStep 3
        { status := RecognitionStatus.CONNECTING, counter := 2, networkErrors := 0,
          scheduled := 2, started := 1 } RcEvt.attemptOpen
      = { status := RecognitionStatus.RECORDING, counter := 0, networkErrors := 0,
          scheduled := 2, started := 1 } ∧
    (runRc 3 [RcEvt.closeInitial, RcEvt.timerFire, RcEvt.attemptError] rcInit).started ≤ 3 := by
  refine ⟨?_, ?_, ?_, ?_, ?_⟩
  · exact c1_reconnect_amended.1 3 rcInit (by decide)
  · exact (c1_reconnect_amended.2.1 3
      { status := RecognitionStatus.RECORDING, counter := 3, networkErrors := 0,
        scheduled := 3, started := 3 } (by decide)).1
  · exact (c1_reconnect_amended.2.1 3
      { status := RecognitionStatus.RECORDING, counter := 3, networkErrors := 0,
        scheduled := 3, started := 3 } (by decide)).2
  · exact c1_reconnect_amended.2.2.1 3
      { status := RecognitionStatus.CONNECTING, counter := 2, networkErrors := 0,
        scheduled := 2, started := 1 } (by decide)
  · exact (c1_reconnect_amended.2.2.2 3
      [RcEvt.closeInitial, RcEvt.timerFire, RcEvt.attemptError] (by decide)).1

/-! ## VAD silence detection: SpeechProcessor.process (WORKLET_CODE,
recognition.ts lines 351-388, configured at lines 402-410 and wired to the
session at lines 1539-1552) -/

/-- State of the worklet VAD accumulator: `silenceFrames`, the recording
flag, and a count of `VAD_TIMEOUT` signals posted so far. -/
structure WorkletState where
  silenceFrames : ℕ
  isRecording : Bool
  fires : ℕ
deriving DecidableEq

/-- The `maxSilenceFrames` computation of the CONFIG handler (recognition.ts
lines 408-409): `secondsPerBlock = 128 / currentRate`;
`maxSilenceFrames = (vadDuration / 1000) / secondsPerBlock`. -/
def maxSilenceFramesOf (vadDuration currentRate : ℚ) : ℚ :=
  (vadDuration / 1000) / (128 / currentRate)

/-- One 128-sample block through the VAD part of `SpeechProcessor.process`
(recognition.ts lines 351-371), given the block's RMS: blocks are ignored
while not recording; a silent block (`rms < vadThreshold`) increments
`silenceFrames`, and once `maxSilenceFrames > 0 && silenceFrames >
maxSilenceFrames` a `VAD_TIMEOUT` is posted and `silenceFrames` is reset to
0; a loud block resets `silenceFrames` to 0.  The posted `VAD_TIMEOUT` makes
the session call `stop()` (recognition.ts lines 1546-1549), which posts
`SET_RECORDING false` back to the worklet (line 1672); on the single-threaded
event loop this feedback is modelled synchronously, clearing `isRecording`
at the firing block. -/
def workletVadStep (vadThreshold maxSilenceFrames : ℚ) (rms : ℚ) (s : WorkletState) :
    WorkletState :=
  if s.isRecording = false then s
  else if rms < vadThreshold then
    if 0 < maxSilenceFrames ∧ maxSilenceFrames < ((s.silenceFrames + 1 : ℕ) : ℚ) then
      { silenceFrames := 0, isRecording := false, fires := s.fires + 1 }
    else { s with silenceFrames := s.silenceFrames + 1 }
  else { s with silenceFrames := 0 }

/-- A sequence of blocks (given by their RMS values) through the VAD. -/
def workletVadRun (vadThreshold maxSilenceFrames : ℚ) (blocks : List ℚ)
    (s : WorkletState) : WorkletState :=
  blocks.foldl (fun st r => workletVadStep vadThreshold maxSilenceFrames r st) s

/-! ### Claim C7 -/

/-- Counterexample to C7 as stated: with `currentRate = 12800` each block
lasts 10 ms, and with `vadDuration = 30` we get `maxSilenceFrames = 3`;
three silent blocks accumulate exactly 30 ms ≥ vadDuration, yet no
silence-timeout fires, because the source fires only on the strict
comparison `silenceFrames > maxSilenceFrames`. -/
theorem c7_counterexample :
    maxSilenceFramesOf 30 12800 = 3 ∧
    (3 : ℚ) * (128 / 12800) * 1000 = 30 ∧
    workletVadRun (2/100) (maxSilenceFramesOf 30 12800) [0, 0, 0]
        { silenceFrames := 0, isRecording := true, fires := 0 }
      = { silenceFrames := 3, isRecording := true, fires := 0 } := by
  have h3 : maxSilenceFramesOf 30 12800 = 3 := by
    norm_num [maxSilenceFramesOf]
  refine ⟨h3, by norm_num, ?_⟩
  rw [h3]
  show workletVadStep (2/100) 3 0 (workletVadStep (2/100) 3 0 (workletVadStep (2/100) 3 0
    { silenceFrames := 0, isRecording := true, fires := 0 })) = _
  have s1 : workletVadStep (2/100) 3 0 { silenceFrames := 0, isRecording := true, fires := 0 }
      = { silenceFrames := 1, isRecording := true, fires := 0 } := by
    unfold workletVadStep
    norm_num
  have s2 : workletVadStep (2/100) 3 0 { silenceFrames := 1, isRecording := true, fires := 0 }
      = { silenceFrames := 2, isRecording := true, fires := 0 } := by
    unfold workletVadStep
    norm_num
  have s3 : workletVadStep (2/100) 3 0 { silenceFrames := 2, isRecording := true, fires := 0 }
      = { silenceFrames := 3, isRecording := true, fires := 0 } := by
    unfold workletVadStep
    norm_num
  rw [s1, s2, s3]

lemma workletVadRun_stopped (vadThreshold maxSilenceFrames : ℚ) (blocks : List ℚ) :
    ∀ s : WorkletState, s.isRecording = false →
      workletVadRun vadThreshold maxSilenceFrames blocks s = s := by
  induction blocks with
  | nil => intro s hs; rfl
  | cons b t ih =>
    intro s hs
    show workletVadRun _ _ t (workletVadStep _ _ b s) = s
    have hstep : workletVadStep vadThreshold maxSilenceFrames b s = s := by
      unfold workletVadStep
      rw [if_pos hs]
    rw [hstep]
    exact ih s hs

lemma workletVadRun_silent (θ maxF : ℚ) (hmax : 0 < maxF) (blocks : List ℚ)
    (hsilent : ∀ r ∈ blocks, r < θ) :
    ∀ (j fires : ℕ), (j : ℚ) ≤ maxF → Nat.floor maxF < j + blocks.length →
      workletVadRun θ maxF blocks { silenceFrames := j, isRecording := true, fires := fires }
        = { silenceFrames := 0, isRecording := false, fires := fires + 1 } := by
  induction blocks with
  | nil =>
    intro j fires hj hlen
    exfalso
    have : j ≤ Nat.floor maxF := Nat.le_floor hj
    simp at hlen
    omega
  | cons b t ih =>
    intro j fires hj hlen
    have hb : b < θ := hsilent b (by simp)
    show workletVadRun θ maxF t
      (workletVadStep θ maxF b { silenceFrames := j, isRecording := true, fires := fires }) = _
    by_cases hfire : maxF < ((j + 1 : ℕ) : ℚ)
    · have hstep : workletVadStep θ maxF b
          { silenceFrames := j, isRecording := true, fires := fires }
          = { silenceFrames := 0, isRecording := false, fires := fires + 1 } := by
        unfold workletVadStep
        rw [if_neg (by simp), if_pos hb, if_pos ⟨hmax, hfire⟩]
      rw [hstep]
      exact workletVadRun_stopped θ maxF t _ rfl
    · have hstep : workletVadStep θ maxF b
          { silenceFrames := j, isRecording := true, fires := fires }
          = { silenceFrames := j + 1, isRecording := true, fires := fires } := by
        unfold workletVadStep
        rw [if_neg (by simp), if_pos hb, if_neg (by tauto)]
      rw [hstep]
      refine ih (fun r hr => hsilent r (by simp [hr])) (j + 1) fires ?_ ?_
      · push_neg at hfire
        exact_mod_cast hfire
      · simp at hlen ⊢
        omega

/-- Claim C7 (amended): with `maxSilenceFrames > 0`, a contiguous run of
silent blocks (every RMS below the threshold) numbering strictly more than
`maxSilenceFrames` — that is, whose accumulated silence strictly exceeds
`vadDuration` — fires exactly one silence-timeout, at which point the
accumulator is reset to 0 and recording stops, so the rest of the span fires
nothing further; and any block with RMS at or above the threshold resets the
accumulator to zero (silent spans of exactly `vadDuration` fire nothing,
because the source compares with strict `>`). -/
theorem c7_vad_amended :
    (∀ (θ maxF : ℚ) (blocks : List ℚ), 0 < maxF → (∀ r ∈ blocks, r < θ) →
      Nat.floor maxF < blocks.length →
      workletVadRun θ maxF blocks { silenceFrames := 0, isRecording := true, fires := 0 }
        = { silenceFrames := 0, isRecording := false, fires := 1 }) ∧
    (∀ (θ maxF rms : ℚ) (s : WorkletState), s.isRecording = true → θ ≤ rms →
      workletVadStep θ maxF rms s = { s with silenceFrames := 0 }) := by
  constructor
  · intro θ maxF blocks hmax hsilent hlen
    exact workletVadRun_silent θ maxF hmax blocks hsilent 0 0 (by exact_mod_cast hmax.le)
      (by simpa using hlen)
  · intro θ maxF rms s hrec hloud
    unfold workletVadStep
    rw [if_neg (by simp [hrec]), if_neg (by push_neg; exact hloud)]

/-- Witness for C7 (amended): four silent blocks against
`maxSilenceFrames = 3` fire exactly once and stop recording; a loud block
resets the accumulator. -/
theorem c7_vad_amended_witness :
    workletVadRun (2/100) 3 [0, 0, 0, 0]
        { silenceFrames := 0, isRecording := true, fires := 0 }
      = { silenceFrames := 0, isRecording := false, fires := 1 } ∧
    workletVadStep (2/100) 3 (1/2)
        { silenceFrames := 2, isRecording := true, fires := 0 }
      = { silenceFrames := 0, isRecording := true, fires := 0 } := by
  constructor
  · refine c7_vad_amended.1 (2/100) 3 [0, 0, 0, 0] (by norm_num) ?_ ?_
    · intro r hr
      simp at hr
      rw [hr]
      norm_num
    · show Nat.floor ((3 : ℚ)) < 4
      norm_num
  · exact c7_vad_amended.2 (2/100) 3 (1/2) _ rfl (by norm_num)

/-! ## Event dispatch: BaseRecognitionStrategy.emit (recognition.ts lines
1128-1140) and SpeechRecognizerImpl.emit (lines 1973-1981) -/

/-- Embeds `emit`: both implementations iterate over the handlers registered
for the event in registration order and invoke each inside its own
`try { fn(data) } catch (e) { console.error(...) }`.  A handler is modelled
as a function on an observer-world state that either returns the updated
world or throws; a throwing handler's exception is caught and logged, so the
world keeps its value from before that handler and iteration continues.  The
function is total — no exception propagates to the emitting operation — and
it never touches the session's `_status`. -/
def strategyEmit {σ : Type} (handlers : List (σ → Except String σ)) (world : σ) : σ :=
  handlers.foldl
    (fun w fn =>
      match fn w with
      | Except.ok w' => w'
      | Except.error _ => w)
    world

/-! ### Claim C10 -/

/-- Claim C10: event dispatch isolates handler failures.  For any handler
list containing a throwing handler, `emit` still invokes every later handler
in registration order on the world produced by the earlier handlers (the
throwing handler contributing nothing), and the result is exactly as if the
throwing handler were absent; in particular the dispatch always returns
normally, so no handler exception reaches the emitting operation or the
session state. -/
theorem c10_emit_isolation :
    (∀ (σ : Type) (pre post : List (σ → Except String σ)) (msg : String) (w : σ),
      strategyEmit (pre ++ (fun _ => Except.error msg) :: post) w
        = strategyEmit post (strategyEmit pre w)) ∧
    (∀ (σ : Type) (pre post : List (σ → Except String σ)) (msg : String) (w : σ),
      strategyEmit (pre ++ (fun _ => Except.error msg) :: post) w
        = strategyEmit (pre ++ post) w) := by
  constructor
  · intro σ pre post msg w
    unfold strategyEmit
    rw [List.foldl_append]
    rfl
  · intro σ pre post msg w
    unfold strategyEmit
    rw [List.foldl_append, List.foldl_append]
    rfl
